import Mathlib

set_option maxRecDepth 20000

/-!
Verification of the signal-detection and alert-deduplication engine of the
Trade-bot repository (`src/telegram_bot.py`).

The Python source is shallowly embedded here:
* prices and volumes become exact rationals (`ℚ`);
* the RSI formula, whose intermediate quotient `gain / loss` can divide by
  zero, is evaluated in `EFloat`, a tiny model of IEEE-754 special values
  (`inf`, `-inf`, `nan`) over exact rationals, mirroring how numpy evaluates
  the same expression on floats;
* the stateful `monitor` loop becomes explicit state passing over the alert
  cache (a list of alert-key strings standing for the `last_alerts` dict);
* the Telegram transport becomes a parameter `attempt : String → Except
  String String`, and `send_message`'s try/except becomes a total function
  returning `Option String` (`none` = delivery failed).
-/

/-- IEEE-style extended value: a finite rational, `+∞`, `-∞`, or NaN.
Used to evaluate the RSI arithmetic exactly as numpy float semantics would
(divide-by-zero yields `±∞` or NaN, NaN propagates, NaN compares false). -/
inductive EFloat where
  | num (q : ℚ)
  | inf
  | ninf
  | nan
deriving DecidableEq, Repr

/-- IEEE negation. -/
def EFloat.neg : EFloat → EFloat
  | .num q => .num (-q)
  | .inf => .ninf
  | .ninf => .inf
  | .nan => .nan

/-- IEEE addition (NaN propagates; `∞ + -∞ = NaN`). -/
def EFloat.add : EFloat → EFloat → EFloat
  | .nan, _ => .nan
  | _, .nan => .nan
  | .inf, .ninf => .nan
  | .ninf, .inf => .nan
  | .inf, _ => .inf
  | _, .inf => .inf
  | .ninf, _ => .ninf
  | _, .ninf => .ninf
  | .num a, .num b => .num (a + b)

/-- IEEE subtraction, as addition of the negation. -/
def EFloat.sub (a b : EFloat) : EFloat := a.add b.neg

/-- IEEE division restricted to the shapes reachable here: a finite value
divided by zero gives `±∞` (or NaN for `0/0`), a finite value divided by an
infinity gives `0`. -/
def EFloat.div : EFloat → EFloat → EFloat
  | .nan, _ => .nan
  | _, .nan => .nan
  | .inf, .inf => .nan
  | .inf, .ninf => .nan
  | .ninf, .inf => .nan
  | .ninf, .ninf => .nan
  | .inf, .num b => if b < 0 then .ninf else .inf
  | .ninf, .num b => if b < 0 then .inf else .ninf
  | .num _, .inf => .num 0
  | .num _, .ninf => .num 0
  | .num a, .num b =>
      if b = 0 then (if a = 0 then .nan else if 0 < a then .inf else .ninf)
      else .num (a / b)

/-- IEEE `≤` as a boolean: any comparison with NaN is false. -/
def EFloat.ble : EFloat → EFloat → Bool
  | .nan, _ => false
  | _, .nan => false
  | .ninf, _ => true
  | _, .ninf => false
  | _, .inf => true
  | .inf, _ => false
  | .num a, .num b => decide (a ≤ b)

/-- One OHLCV candle row of the klines DataFrame (numeric columns only;
the timestamp column is never read by the setup logic).  `open_` carries a
trailing underscore because `open` is a Lean keyword. -/
structure Candle where
  open_ : ℚ
  high : ℚ
  low : ℚ
  close : ℚ
  volume : ℚ
deriving DecidableEq, Repr, Inhabited

/-- Embeds `last = df.iloc[-1]`: the newest candle of the series. -/
def lastCandle (candles : List Candle) : Candle :=
  candles.reverse.headD default

/-- Embeds `prev = df.iloc[-2]`: the second-newest candle of the series. -/
def prevCandle (candles : List Candle) : Candle :=
  candles.reverse.tail.headD default

/-- Embeds `calculate_ema(df, period)` at the final index.
`df['close'].ewm(span=period, adjust=False).mean()` is the recurrence
`e₀ = c₀`, `eₜ = α cₜ + (1-α) eₜ₋₁` with `α = 2/(period+1)`; its last value
is this left fold over the closes. -/
def ema_last (period : ℕ) (closes : List ℚ) : ℚ :=
  match closes with
  | [] => 0
  | c :: rest =>
      rest.foldl (fun e x => (2 * x + ((period : ℚ) - 1) * e) / ((period : ℚ) + 1)) c

/-- Embeds `typical_price = (df['high'] + df['low'] + df['close']) / 3`. -/
def typical_price (c : Candle) : ℚ := (c.high + c.low + c.close) / 3

/-- Embeds `calculate_vwap(df)` at the final index:
`(typical_price * volume).cumsum() / volume.cumsum()`, whose last value is
the ratio of the full sums over the supplied series. -/
def vwap_last (candles : List Candle) : ℚ :=
  ((candles.map (fun c => typical_price c * c.volume)).sum) /
    ((candles.map (fun c => c.volume)).sum)

/-- Embeds `df['close'].diff()` without its leading NaN: the list of consecutive
close deltas `cᵢ - cᵢ₋₁`. -/
def rsi_deltas (closes : List ℚ) : List ℚ :=
  List.zipWith (fun b a => b - a) closes.tail closes

/-- The trailing 14-delta window that `rolling(window=14).mean()` averages
at the final index. -/
def rsi_window (closes : List ℚ) : List ℚ :=
  (rsi_deltas closes).drop ((rsi_deltas closes).length - 14)

/-- Embeds `calculate_rsi(df, period=14)` at the final index.
`delta.where(delta > 0, 0)` keeps positive deltas and coerces the leading
NaN of `diff()` to `0` (NaN compares false), hence the `0 ::` below; the
rolling mean at the last index averages the trailing 14 entries and is NaN
(window not yet full) when the series has fewer than 14 rows.  The final
expression `100 - 100/(1 + gain/loss)` is evaluated in IEEE semantics. -/
def rsi_last (closes : List ℚ) : EFloat :=
  if closes.length < 14 then EFloat.nan else
  let gains := 0 :: (rsi_deltas closes).map (fun d => if 0 < d then d else 0)
  let losses := 0 :: (rsi_deltas closes).map (fun d => if d < 0 then -d else 0)
  let avg_gain := (gains.drop (gains.length - 14)).sum / 14
  let avg_loss := (losses.drop (losses.length - 14)).sum / 14
  (EFloat.num 100).sub
    ((EFloat.num 100).div
      ((EFloat.num 1).add ((EFloat.num avg_gain).div (EFloat.num avg_loss))))

/-- Embeds `check_volume_increasing(df, lookback)`: look at
`df['volume'].iloc[-lookback:]` (for `lookback = 0` Python slicing yields
the whole column), return `False` on fewer than 2 entries, else test that
each adjacent pair strictly increases. -/
def check_volume_increasing (volumes : List ℚ) (lookback : ℕ) : Bool :=
  let recent := if lookback = 0 then volumes
                else volumes.drop (volumes.length - lookback)
  if recent.length < 2 then false
  else (List.zipWith (fun a b => decide (a < b)) recent recent.tail).all id

/-- Embeds `is_bullish_candle(row)`: zero-range candles are rejected before
the division, otherwise require a bullish close with body more than 0.6 of
the range. -/
def is_bullish_candle (row : Candle) : Bool :=
  let body := |row.close - row.open_|
  let total_range := row.high - row.low
  if total_range = 0 then false
  else decide (row.close > row.open_) && decide (body / total_range > 0.6)

/-- The "within 1.5%" proximity test shared by `near_support` (buy) and
`near_resistance` (sell): `abs(close - level) / close < 0.015`. -/
def near_level (close level : ℚ) : Bool :=
  decide (|close - level| / close < 0.015)

/-- The risk-management keys added to a fired buy result. -/
structure RiskPlan where
  entry : ℚ
  stop : ℚ
  target_1 : ℚ
  target_2 : ℚ
  target_3 : ℚ
  risk_percent : ℚ
deriving DecidableEq, Repr

/-- The `checks` dict of `check_buy_setup` (`trend_up` and `above_ema200`
are two distinct keys in the source, with identical defining expressions). -/
structure BuyChecks where
  trend_up : Bool
  above_ema200 : Bool
  near_support : Bool
  rsi_range : Bool
  strong_candle : Bool
  volume_up : Bool
deriving DecidableEq, Repr

/-- The payload keys present in a buy result only when the length guard
passed (price, indicator values, condition outcomes, optional risk plan). -/
structure BuyInfo where
  price : ℚ
  ema_21 : ℚ
  ema_200 : ℚ
  vwap : ℚ
  rsi : EFloat
  volume : ℚ
  checks : BuyChecks
  plan : Option RiskPlan
deriving DecidableEq, Repr

/-- The dict returned by `check_buy_setup`: `reason` is present exactly on
the insufficient-data early return, `info` exactly on the full path. -/
structure BuyResult where
  signal : Bool
  reason : Option String
  info : Option BuyInfo
deriving DecidableEq, Repr

/-- The `checks` dict of `check_sell_setup`. -/
structure SellChecks where
  below_ema200 : Bool
  vwap_above : Bool
  near_resistance : Bool
  rejection : Bool
deriving DecidableEq, Repr

/-- The payload keys of a sell result past the length guard. -/
structure SellInfo where
  price : ℚ
  ema_21 : ℚ
  ema_200 : ℚ
  vwap : ℚ
  rsi : EFloat
  checks : SellChecks
deriving DecidableEq, Repr

/-- The dict returned by `check_sell_setup`. -/
structure SellResult where
  signal : Bool
  reason : Option String
  info : Option SellInfo
deriving DecidableEq, Repr

/-- Embeds `check_buy_setup` on an already-fetched candle series (the
network fetch `get_klines` is the out-of-scope data provider).  Mirrors the
source line by line: length guard, indicator columns, the six-entry
`checks` dict, `signal = all(checks.values())`, and the risk-plan keys
added only when every check passed. -/
def check_buy_setup (candles : List Candle) : BuyResult :=
  if candles.isEmpty || candles.length < 200 then
    { signal := false, reason := some "Dados insuficientes", info := none }
  else
    let closes := candles.map (fun c => c.close)
    let ema_21 := ema_last 21 closes
    let ema_200 := ema_last 200 closes
    let vwap := vwap_last candles
    let rsi := rsi_last closes
    let last := lastCandle candles
    let prev := prevCandle candles
    let checks : BuyChecks :=
      { trend_up := decide (last.close > ema_200)
        above_ema200 := decide (last.close > ema_200)
        near_support := near_level last.close ema_21 || near_level last.close vwap
        rsi_range := (EFloat.num 40).ble rsi && rsi.ble (EFloat.num 65)
        strong_candle := is_bullish_candle last
        volume_up := check_volume_increasing (candles.map (fun c => c.volume)) 3 }
    let all_conditions := checks.trend_up && checks.above_ema200 &&
      checks.near_support && checks.rsi_range && checks.strong_candle &&
      checks.volume_up
    let plan : Option RiskPlan :=
      if all_conditions then
        let entry := last.high
        let stop := min prev.low ema_21
        let risk := entry - stop
        some { entry := entry, stop := stop
               target_1 := entry + risk
               target_2 := entry + risk * 2
               target_3 := entry + risk * 3
               risk_percent := risk / entry * 100 }
      else none
    { signal := all_conditions
      reason := none
      info := some { price := last.close, ema_21 := ema_21, ema_200 := ema_200
                     vwap := vwap, rsi := rsi, volume := last.volume
                     checks := checks, plan := plan } }

/-- Embeds `check_sell_setup` on an already-fetched candle series. -/
def check_sell_setup (candles : List Candle) : SellResult :=
  if candles.isEmpty || candles.length < 200 then
    { signal := false, reason := some "Dados insuficientes", info := none }
  else
    let closes := candles.map (fun c => c.close)
    let ema_21 := ema_last 21 closes
    let ema_200 := ema_last 200 closes
    let vwap := vwap_last candles
    let rsi := rsi_last closes
    let last := lastCandle candles
    let checks : SellChecks :=
      { below_ema200 := decide (last.close < ema_200)
        vwap_above := decide (vwap > last.close)
        near_resistance := near_level last.close ema_21 || near_level last.close vwap
        rejection := decide (last.close < last.open_) }
    let all_conditions := checks.below_ema200 && checks.vwap_above &&
      checks.near_resistance && checks.rejection
    { signal := all_conditions
      reason := none
      info := some { price := last.close, ema_21 := ema_21, ema_200 := ema_200
                     vwap := vwap, rsi := rsi, checks := checks } }

/-- Embeds `TelegramBot.send_message`: the transport call sits inside
`try/except`, so a raising transport becomes a returned `none` instead of a
propagated exception. -/
def send_message (attempt : String → Except String String) (text : String) :
    Option String :=
  match attempt text with
  | Except.ok r => some r
  | Except.error _ => none

/-- Embeds the f-string alert keys of `monitor` (symbol, then direction `BUY` or
`SELL`, then hour bucket, joined by underscores): the deduplication
key is derived from the wall-clock hour bucket
`datetime.now().strftime('%Y%m%d%H')`. -/
def alert_key (symbol direction hourBucket : String) : String :=
  symbol ++ "_" ++ direction ++ "_" ++ hourBucket

/-- One fired-setup block of the `monitor` loop body: when the setup fired,
look the alert key up in `last_alerts`; on a novel key, hand the message to
`send_message` and record the key (recorded whether or not delivery
succeeded).  Returns the list of delivery attempts made (message and
outcome) and the updated cache. -/
def processSignal (attempt : String → Except String String)
    (st : List String) (fired : Bool) (key msg : String) :
    List (String × Option String) × List String :=
  if fired then
    if key ∈ st then ([], st)
    else ([(msg, send_message attempt msg)], key :: st)
  else ([], st)

/-- The per-symbol iteration of one `monitor` pass, folded over the
sequence of (fired, alert key, message) outcomes this pass produced. -/
def passFold (attempt : String → Except String String)
    (sigs : List (Bool × String × String))
    (acc : List (String × Option String) × List String) :
    List (String × Option String) × List String :=
  sigs.foldl
    (fun acc sig =>
      let r := processSignal attempt acc.2 sig.1 sig.2.1 sig.2.2
      (acc.1 ++ r.1, r.2))
    acc

/-- One full pass of the `monitor` while-loop: iterate all symbols' signal
outcomes, then `if len(self.last_alerts) > 100: self.last_alerts.clear()`. -/
def monitorPass (attempt : String → Except String String)
    (sigs : List (Bool × String × String)) (st : List String) :
    List (String × Option String) × List String :=
  let r := passFold attempt sigs ([], st)
  (r.1, if 100 < r.2.length then [] else r.2)

def flat (q v : ℚ) : Candle := { open_ := q, high := q, low := q, close := q, volume := v }

def goodSeries : List Candle :=
  flat 100 1 :: (List.replicate 185 (flat 100 1) ++
  [flat 103 1, flat 101 1, flat 104 1, flat 102 1, flat 105 1, flat 103 1,
   flat 106 1, flat 104 1, flat 107 1, flat 105 1, flat 108 1,
   flat 106 2, flat 109 3,
   { open_ := 105.5, high := 107.5, low := 105.2, close := 107, volume := 2000 }])

def badSeries : List Candle :=
  flat 100 1 :: (List.replicate 184 (flat 100 1) ++
  [flat 120 1, flat 124 1, flat 128 1, flat 132 1, flat 136 1, flat 140 1,
   flat 144 1, flat 148 1, flat 152 1, flat 156 1, flat 160 1, flat 164 1,
   flat 168 2, flat 172 30,
   { open_ := 100, high := 114, low := 98, close := 110, volume := 500 }])

def boundarySeries : List Candle :=
  flat 1967 1 :: (List.replicate 198 (flat 1967 1) ++
  [{ open_ := 1500, high := 5700, low := 1, close := 2000, volume := 1 }])

lemma foldl_fixed (f : ℚ → ℚ → ℚ) (a c : ℚ) (h : f a c = a) :
    ∀ n, List.foldl f a (List.replicate n c) = a
  | 0 => rfl
  | n+1 => by rw [List.replicate_succ, List.foldl_cons, h]; exact foldl_fixed f a c h n

lemma replicate_append_drop {α : Type} (m n : ℕ) (c : α) (T : List α) :
    (List.replicate m c ++ T).drop (m + n) = T.drop n := by
  induction m with
  | zero => simp
  | succ k ih =>
      rw [List.replicate_succ, List.cons_append, show k + 1 + n = (k + n) + 1 by omega,
        List.drop_succ_cons]
      exact ih

lemma rsi_deltas_cons_cons (x y : ℚ) (R : List ℚ) :
    rsi_deltas (x :: y :: R) = (y - x) :: rsi_deltas (y :: R) := rfl

lemma rsi_deltas_replicate (m : ℕ) (c : ℚ) (T : List ℚ) :
    rsi_deltas (List.replicate (m+1) c ++ T) = List.replicate m 0 ++ rsi_deltas (c :: T) := by
  induction m with
  | zero => simp
  | succ k ih =>
      rw [List.replicate_succ, List.cons_append, List.replicate_succ, List.cons_append,
        rsi_deltas_cons_cons, ← List.cons_append, ← List.replicate_succ, ih, sub_self,
        List.replicate_succ, List.cons_append]

lemma good_closes : goodSeries.map (fun c => c.close) =
    List.replicate 186 (100:ℚ) ++
      [103,101,104,102,105,103,106,104,107,105,108,106,109,107] := by
  simp only [goodSeries, flat, List.map_cons, List.map_append, List.map_replicate,
    List.map_nil]
  rw [← List.cons_append, ← List.replicate_succ]

lemma good_len : goodSeries.length = 200 := by
  simp only [goodSeries, List.length_cons, List.length_append, List.length_replicate,
    List.length_nil]

lemma good_ema21 : ema_last 21 (goodSeries.map (fun c => c.close)) =
    39567518541661107/379749833583241 := by
  rw [good_closes, show (186:ℕ) = 185+1 from rfl, List.replicate_succ, List.cons_append]
  show List.foldl _ 100 (List.replicate 185 (100:ℚ) ++ _) = _
  rw [List.foldl_append, foldl_fixed _ _ _ (by norm_num)]
  with_unfolding_all rfl

lemma good_ema200 : ema_last 200 (goodSeries.map (fun c => c.close)) =
    5895130941611089425997930891036024/58563031418385267478081505214267 := by
  rw [good_closes, show (186:ℕ) = 185+1 from rfl, List.replicate_succ, List.cons_append]
  show List.foldl _ 100 (List.replicate 185 (100:ℚ) ++ _) = _
  rw [List.foldl_append, foldl_fixed _ _ _ (by norm_num)]
  with_unfolding_all rfl

lemma good_vwap : vwap_last goodSeries = 700261/6606 := by
  simp only [vwap_last, goodSeries, flat, typical_price, List.map_cons, List.map_append,
    List.map_replicate, List.map_nil, List.sum_cons, List.sum_append, List.sum_replicate,
    smul_eq_mul]
  norm_num

lemma replicate_append_drop_self {α : Type} (m : ℕ) (c : α) (T : List α) :
    (List.replicate m c ++ T).drop m = T := by
  have h := replicate_append_drop m 0 c T
  simp only [Nat.add_zero, List.drop_zero] at h
  exact h

lemma good_rsi : rsi_last (goodSeries.map (fun c => c.close)) = EFloat.num 60 := by
  rw [good_closes]
  rw [rsi_last]
  rw [show (186:ℕ) = 185+1 from rfl, rsi_deltas_replicate]
  simp only [List.length_append, List.length_replicate, List.length_cons,
    List.length_nil, List.map_append, List.map_replicate, List.map_cons, List.map_nil]
  norm_num
  with_unfolding_all rfl

lemma good_volumes : goodSeries.map (fun c => c.volume) =
    List.replicate 186 (1:ℚ) ++ [1,1,1,1,1,1,1,1,1,1,1,2,3,2000] := by
  simp only [goodSeries, flat, List.map_cons, List.map_append, List.map_replicate,
    List.map_nil]
  rw [← List.cons_append, ← List.replicate_succ]

lemma good_vol : check_volume_increasing (goodSeries.map (fun c => c.volume)) 3 = true := by
  rw [good_volumes]
  have hrec : (List.replicate 186 (1:ℚ) ++ [1,1,1,1,1,1,1,1,1,1,1,2,3,2000]).drop
      ((List.replicate 186 (1:ℚ) ++ [1,1,1,1,1,1,1,1,1,1,1,2,3,2000]).length - 3) =
      [2,3,2000] := by
    simp only [List.length_append, List.length_replicate, List.length_cons, List.length_nil]
    rw [show (186 + (11 + 3) - 3 : ℕ) = 186 + 11 from rfl, replicate_append_drop]
    with_unfolding_all rfl
  rw [check_volume_increasing]
  simp only [hrec]
  with_unfolding_all rfl

lemma good_last : lastCandle goodSeries =
    { open_ := 105.5, high := 107.5, low := 105.2, close := 107, volume := 2000 } := by
  rw [lastCandle, goodSeries]
  rw [List.reverse_cons, List.reverse_append]
  with_unfolding_all rfl

lemma good_prev : prevCandle goodSeries =
    { open_ := 109, high := 109, low := 109, close := 109, volume := 3 } := by
  rw [prevCandle, goodSeries]
  rw [List.reverse_cons, List.reverse_append]
  with_unfolding_all rfl

lemma good_eval : check_buy_setup goodSeries =
    { signal := true, reason := none,
      info := some
        { price := 107,
          ema_21 := 39567518541661107/379749833583241,
          ema_200 := 5895130941611089425997930891036024/58563031418385267478081505214267,
          vwap := 700261/6606,
          rsi := EFloat.num 60,
          volume := 2000,
          checks := { trend_up := true, above_ema200 := true, near_support := true,
                      rsi_range := true, strong_candle := true, volume_up := true },
          plan := some
            { entry := 215/2,
              stop := 39567518541661107/379749833583241,
              target_1 := 42078695678735708/379749833583241,
              target_2 := 86668568494546017/759499667166482,
              target_3 := 44589872815810309/379749833583241,
              risk_percent := 50223542741492020/16329242844079363 } } } := by
  have hguard : (goodSeries.isEmpty || decide (goodSeries.length < 200)) = false := by
    rw [good_len, show goodSeries.isEmpty = false from rfl]
    norm_num
  simp only [check_buy_setup, hguard, Bool.false_eq_true, if_false]
  rw [good_ema21, good_ema200, good_vwap, good_rsi, good_vol, good_last, good_prev]
  have habs : |(3/2 : ℚ)| = 3/2 := abs_of_pos (by norm_num)
  norm_num [near_level, is_bullish_candle, EFloat.ble, min_def, div_lt_iff₀, abs_lt, habs]

lemma bad_closes : badSeries.map (fun c => c.close) =
    List.replicate 185 (100:ℚ) ++
      [120,124,128,132,136,140,144,148,152,156,160,164,168,172,110] := by
  simp only [badSeries, flat, List.map_cons, List.map_append, List.map_replicate,
    List.map_nil]
  rw [← List.cons_append, ← List.replicate_succ]

lemma bad_len : badSeries.length = 200 := by
  simp only [badSeries, List.length_cons, List.length_append, List.length_replicate,
    List.length_nil]

lemma bad_ema21 : ema_last 21 (badSeries.map (fun c => c.close)) =
    567042262024034630/4177248169415651 := by
  rw [bad_closes, show (185:ℕ) = 184+1 from rfl, List.replicate_succ, List.cons_append]
  show List.foldl _ 100 (List.replicate 184 (100:ℚ) ++ _) = _
  rw [List.foldl_append, foldl_fixed _ _ _ (by norm_num)]
  with_unfolding_all rfl

lemma bad_ema200 : ema_last 200 (badSeries.map (fun c => c.close)) =
    3747939824336043165237834767798829664/35313507945286316289283147644203001 := by
  rw [bad_closes, show (185:ℕ) = 184+1 from rfl, List.replicate_succ, List.cons_append]
  show List.foldl _ 100 (List.replicate 184 (100:ℚ) ++ _) = _
  rw [List.foldl_append, foldl_fixed _ _ _ (by norm_num)]
  with_unfolding_all rfl

lemma bad_vwap : vwap_last badSeries = 238100/2187 := by
  simp only [vwap_last, badSeries, flat, typical_price, List.map_cons, List.map_append,
    List.map_replicate, List.map_nil, List.sum_cons, List.sum_append, List.sum_replicate,
    smul_eq_mul]
  norm_num

lemma bad_rsi : rsi_last (badSeries.map (fun c => c.close)) = EFloat.num (2600/57) := by
  rw [bad_closes]
  rw [rsi_last]
  rw [show (185:ℕ) = 184+1 from rfl, rsi_deltas_replicate]
  simp only [List.length_append, List.length_replicate, List.length_cons,
    List.length_nil, List.map_append, List.map_replicate, List.map_cons, List.map_nil]
  norm_num
  with_unfolding_all rfl

lemma bad_volumes : badSeries.map (fun c => c.volume) =
    List.replicate 185 (1:ℚ) ++ [1,1,1,1,1,1,1,1,1,1,1,1,2,30,500] := by
  simp only [badSeries, flat, List.map_cons, List.map_append, List.map_replicate,
    List.map_nil]
  rw [← List.cons_append, ← List.replicate_succ]

lemma bad_vol : check_volume_increasing (badSeries.map (fun c => c.volume)) 3 = true := by
  rw [bad_volumes]
  have hrec : (List.replicate 185 (1:ℚ) ++ [1,1,1,1,1,1,1,1,1,1,1,1,2,30,500]).drop
      ((List.replicate 185 (1:ℚ) ++ [1,1,1,1,1,1,1,1,1,1,1,1,2,30,500]).length - 3) =
      [2,30,500] := by
    simp only [List.length_append, List.length_replicate, List.length_cons, List.length_nil]
    rw [show (185 + (12 + 3) - 3 : ℕ) = 185 + 12 from rfl, replicate_append_drop]
    with_unfolding_all rfl
  rw [check_volume_increasing]
  simp only [hrec]
  with_unfolding_all rfl

lemma bad_last : lastCandle badSeries =
    { open_ := 100, high := 114, low := 98, close := 110, volume := 500 } := by
  rw [lastCandle, badSeries]
  rw [List.reverse_cons, List.reverse_append]
  with_unfolding_all rfl

lemma bad_prev : prevCandle badSeries =
    { open_ := 172, high := 172, low := 172, close := 172, volume := 30 } := by
  rw [prevCandle, badSeries]
  rw [List.reverse_cons, List.reverse_append]
  with_unfolding_all rfl

lemma bad_eval : check_buy_setup badSeries =
    { signal := true, reason := none,
      info := some
        { price := 110,
          ema_21 := 567042262024034630/4177248169415651,
          ema_200 := 3747939824336043165237834767798829664/35313507945286316289283147644203001,
          vwap := 238100/2187,
          rsi := EFloat.num (2600/57),
          volume := 500,
          checks := { trend_up := true, above_ema200 := true, near_support := true,
                      rsi_range := true, strong_candle := true, volume_up := true },
          plan := some
            { entry := 114,
              stop := 567042262024034630/4177248169415651,
              target_1 := 385370320602733798/4177248169415651,
              target_2 := 294534349892083382/4177248169415651,
              target_3 := 203698379181432966/4177248169415651,
              risk_percent := -4541798535532520800/238103145656692107 } } } := by
  have hguard : (badSeries.isEmpty || decide (badSeries.length < 200)) = false := by
    rw [bad_len, show badSeries.isEmpty = false from rfl]
    norm_num
  simp only [check_buy_setup, hguard, Bool.false_eq_true, if_false]
  rw [bad_ema21, bad_ema200, bad_vwap, bad_rsi, bad_vol, bad_last, bad_prev]
  have habs : |(10 : ℚ)| = 10 := abs_of_pos (by norm_num)
  norm_num [near_level, is_bullish_candle, EFloat.ble, min_def, div_lt_iff₀, abs_lt, habs]

lemma boundary_closes : boundarySeries.map (fun c => c.close) =
    List.replicate 199 (1967:ℚ) ++ [2000] := by
  simp only [boundarySeries, flat, List.map_cons, List.map_append, List.map_replicate,
    List.map_nil]
  rw [← List.cons_append, ← List.replicate_succ]

lemma boundary_len : boundarySeries.length = 200 := by
  simp only [boundarySeries, List.length_cons, List.length_append, List.length_replicate,
    List.length_nil]

lemma boundary_ema21 : ema_last 21 (boundarySeries.map (fun c => c.close)) = 1970 := by
  rw [boundary_closes, show (199:ℕ) = 198+1 from rfl, List.replicate_succ, List.cons_append]
  show List.foldl _ 1967 (List.replicate 198 (1967:ℚ) ++ _) = _
  rw [List.foldl_append, foldl_fixed _ _ _ (by norm_num)]
  with_unfolding_all rfl

lemma boundary_vwap : vwap_last boundarySeries = 1970 := by
  simp only [vwap_last, boundarySeries, flat, typical_price, List.map_cons, List.map_append,
    List.map_replicate, List.map_nil, List.sum_cons, List.sum_append, List.sum_replicate,
    smul_eq_mul]
  norm_num

lemma boundary_last : lastCandle boundarySeries =
    { open_ := 1500, high := 5700, low := 1, close := 2000, volume := 1 } := by
  rw [lastCandle, boundarySeries]
  rw [List.reverse_cons, List.reverse_append]
  with_unfolding_all rfl

lemma length_guard_false (candles : List Candle) (h : 200 ≤ candles.length) :
    (candles.isEmpty || decide (candles.length < 200)) = false := by
  cases candles with
  | nil => simp at h
  | cons a l =>
      rw [List.isEmpty_cons, Bool.false_or]
      exact decide_eq_false (by omega)

/-- C6: a series that is empty or shorter than 200 candles makes both
`check_buy_setup` and `check_sell_setup` return the non-signal
insufficient-data result (signal false, the Portuguese reason string, and
no indicator values, checks or plan computed). -/
theorem insufficient_data_short_circuit (candles : List Candle)
    (h : candles.length < 200) :
    check_buy_setup candles =
      { signal := false, reason := some "Dados insuficientes", info := none } ∧
    check_sell_setup candles =
      { signal := false, reason := some "Dados insuficientes", info := none } := by
  have hg : (candles.isEmpty || candles.length < 200) = true := by
    simp [h]
  constructor
  · rw [check_buy_setup, if_pos hg]
  · rw [check_sell_setup, if_pos hg]

/-- Witness for C6 at a concrete 1-candle series. -/
theorem insufficient_data_witness :
    ([flat 1 1] : List Candle).length < 200 ∧
    (check_buy_setup [flat 1 1] =
      { signal := false, reason := some "Dados insuficientes", info := none } ∧
     check_sell_setup [flat 1 1] =
      { signal := false, reason := some "Dados insuficientes", info := none }) :=
  ⟨by simp, insufficient_data_short_circuit [flat 1 1] (by simp)⟩

/-- C9: a candle is classified strong bullish exactly when it closes above
its open and its body exceeds 0.6 of its range; a zero-range candle is
rejected by the explicit guard before the division is performed. -/
theorem bullish_candle_spec (c : Candle) :
    (c.high = c.low → is_bullish_candle c = false) ∧
    (c.high ≠ c.low →
      (is_bullish_candle c = true ↔
        (c.close > c.open_ ∧ |c.close - c.open_| / (c.high - c.low) > 0.6))) := by
  unfold is_bullish_candle
  constructor
  · intro h
    rw [h]
    simp
  · intro h
    have hne : c.high - c.low ≠ 0 := sub_ne_zero.mpr h
    rw [if_neg hne]
    simp [Bool.and_eq_true, decide_eq_true_eq]

/-- Witness for C9 at a zero-range candle and at a strong bullish candle. -/
theorem bullish_candle_witness :
    is_bullish_candle { open_ := 1, high := 3, low := 3, close := 2, volume := 1 } = false ∧
    (is_bullish_candle { open_ := 100, high := 114, low := 98, close := 110, volume := 1 } = true ↔
      ((110:ℚ) > 100 ∧ |(110:ℚ) - 100| / (114 - 98) > 0.6)) :=
  ⟨(bullish_candle_spec _).1 rfl, (bullish_candle_spec _).2 (by norm_num)⟩

lemma all_zipWith_lt_iff (l : List ℚ) :
    ((List.zipWith (fun a b => decide (a < b)) l l.tail).all id = true) ↔
      List.Chain' (· < ·) l := by
  induction l with
  | nil => simp
  | cons x xs ih =>
      cases xs with
      | nil => simp
      | cons y ys =>
          rw [List.chain'_cons, ← ih]
          simp [Bool.and_eq_true, decide_eq_true_eq, and_comm]

lemma cvi_three_iff (volumes : List ℚ) :
    check_volume_increasing volumes 3 = true ↔
      (2 ≤ (volumes.drop (volumes.length - 3)).length ∧
        List.Chain' (· < ·) (volumes.drop (volumes.length - 3))) := by
  unfold check_volume_increasing
  by_cases h2 : (volumes.drop (volumes.length - 3)).length < 2
  · simp only [if_neg (by norm_num : ¬(3 = 0)), if_pos h2]
    constructor
    · intro hf
      exact absurd hf (by simp)
    · intro ⟨ha, _⟩
      omega
  · simp only [if_neg (by norm_num : ¬(3 = 0)), if_neg h2]
    rw [all_zipWith_lt_iff]
    exact (and_iff_right (by omega)).symm

/-- C8: `check_volume_increasing` is true exactly when the trailing window
of 3 volumes has at least two entries and is strictly increasing through
the whole window; a window of fewer than 2 candles yields false, and a
constant-volume series of length at least 200 yields false. -/
theorem volume_increasing_spec :
    (∀ volumes : List ℚ,
      (check_volume_increasing volumes 3 = true ↔
        (2 ≤ (volumes.drop (volumes.length - 3)).length ∧
          List.Chain' (· < ·) (volumes.drop (volumes.length - 3))))) ∧
    (∀ volumes : List ℚ, (volumes.drop (volumes.length - 3)).length < 2 →
      check_volume_increasing volumes 3 = false) ∧
    (∀ (v : ℚ) (n : ℕ), 200 ≤ n →
      check_volume_increasing (List.replicate n v) 3 = false) := by
  refine ⟨cvi_three_iff, ?_, ?_⟩
  · intro volumes h2
    rw [← Bool.not_eq_true, cvi_three_iff]
    intro ⟨ha, _⟩
    omega
  · intro v n hn
    rw [← Bool.not_eq_true, cvi_three_iff]
    intro ⟨_, hchain⟩
    rw [List.length_replicate, List.drop_replicate] at hchain
    have h3 : n - (n - 3) = 3 := by omega
    rw [h3] at hchain
    rw [show List.replicate 3 v = [v, v, v] from rfl, List.chain'_cons] at hchain
    exact lt_irrefl v hchain.1

/-- Witness for C8: a strictly increasing window, a too-short series, and a
constant 200-candle series. -/
theorem volume_increasing_witness :
    (check_volume_increasing [1, 5, 2, 3, 9] 3 = true ↔
      (2 ≤ (([1, 5, 2, 3, 9] : List ℚ).drop (5 - 3)).length ∧
        List.Chain' (· < ·) (([1, 5, 2, 3, 9] : List ℚ).drop (5 - 3)))) ∧
    check_volume_increasing [7] 3 = false ∧
    check_volume_increasing (List.replicate 200 (4:ℚ)) 3 = false :=
  ⟨volume_increasing_spec.1 [1, 5, 2, 3, 9],
   volume_increasing_spec.2.1 [7] (by simp),
   volume_increasing_spec.2.2 4 200 (by norm_num)⟩

lemma near_level_boundary (c lvl : ℚ) (hpos : 0 < c) (h : |c - lvl| = 0.015 * c) :
    near_level c lvl = false := by
  unfold near_level
  rw [h, mul_div_assoc, div_self hpos.ne', mul_one]
  simp

/-- C10: the proximity test divides the absolute distance by the current
close and compares strictly, so a latest candle lying exactly 1.5% away
from both the EMA-21 and the VWAP fails `near_support` in the buy setup and
`near_resistance` in the sell setup. -/
theorem near_boundary_fails (candles : List Candle) (h : 200 ≤ candles.length)
    (hpos : 0 < (lastCandle candles).close)
    (he : |(lastCandle candles).close - ema_last 21 (candles.map (fun c => c.close))| =
      0.015 * (lastCandle candles).close)
    (hv : |(lastCandle candles).close - vwap_last candles| =
      0.015 * (lastCandle candles).close) :
    (check_buy_setup candles).info.map (fun i => i.checks.near_support) = some false ∧
    (check_sell_setup candles).info.map (fun i => i.checks.near_resistance) = some false := by
  have hg := length_guard_false candles h
  constructor
  · simp only [check_buy_setup, hg, Bool.false_eq_true, if_false, Option.map_some']
    rw [near_level_boundary _ _ hpos he, near_level_boundary _ _ hpos hv]
    rfl
  · simp only [check_sell_setup, hg, Bool.false_eq_true, if_false, Option.map_some']
    rw [near_level_boundary _ _ hpos he, near_level_boundary _ _ hpos hv]
    rfl

/-- Witness for C10 at a concrete 200-candle series whose EMA-21 and VWAP
are both exactly 1970 while the latest close is 2000 (distance exactly
1.5% of the close). -/
theorem near_boundary_witness :
    200 ≤ boundarySeries.length ∧
    0 < (lastCandle boundarySeries).close ∧
    |(lastCandle boundarySeries).close -
      ema_last 21 (boundarySeries.map (fun c => c.close))| =
      0.015 * (lastCandle boundarySeries).close ∧
    |(lastCandle boundarySeries).close - vwap_last boundarySeries| =
      0.015 * (lastCandle boundarySeries).close ∧
    ((check_buy_setup boundarySeries).info.map (fun i => i.checks.near_support) =
        some false ∧
     (check_sell_setup boundarySeries).info.map (fun i => i.checks.near_resistance) =
        some false) := by
  have habs : |(30:ℚ)| = 30 := abs_of_pos (by norm_num)
  have h1 : 0 < (lastCandle boundarySeries).close := by
    rw [boundary_last]
    norm_num
  have h2 : |(lastCandle boundarySeries).close -
      ema_last 21 (boundarySeries.map (fun c => c.close))| =
      0.015 * (lastCandle boundarySeries).close := by
    rw [boundary_last, boundary_ema21, show (2000:ℚ) - 1970 = 30 by norm_num, habs]
    norm_num
  have h3 : |(lastCandle boundarySeries).close - vwap_last boundarySeries| =
      0.015 * (lastCandle boundarySeries).close := by
    rw [boundary_last, boundary_vwap, show (2000:ℚ) - 1970 = 30 by norm_num, habs]
    norm_num
  exact ⟨by simp [boundary_len], h1, h2, h3,
    near_boundary_fails boundarySeries (by simp [boundary_len]) h1 h2 h3⟩

lemma rsi_range_iff (r : EFloat) :
    ((EFloat.num 40).ble r = true ∧ r.ble (EFloat.num 65) = true) ↔
      ∃ q : ℚ, r = EFloat.num q ∧ 40 ≤ q ∧ q ≤ 65 := by
  cases r with
  | num q => simp [EFloat.ble, decide_eq_true_eq]
  | inf => simp [EFloat.ble]
  | ninf => simp [EFloat.ble]
  | nan => simp [EFloat.ble]

/-- C1: for a series of at least 200 candles, the buy signal is true exactly
when all five long conditions hold on the latest candle — close above the
EMA-200, close within 1.5% of the EMA-21 or of the VWAP, RSI within
[40, 65] inclusive, a strong bullish latest candle, and strictly increasing
volume over the trailing 3 candles — a plain logical AND with no partial
scoring (the duplicated `above_ema200` check collapses into `trend_up`). -/
theorem buy_signal_iff_conditions (candles : List Candle)
    (h : 200 ≤ candles.length) :
    ((check_buy_setup candles).signal = true ↔
      ((lastCandle candles).close > ema_last 200 (candles.map (fun c => c.close)) ∧
       (near_level (lastCandle candles).close
          (ema_last 21 (candles.map (fun c => c.close))) = true ∨
        near_level (lastCandle candles).close (vwap_last candles) = true) ∧
       (∃ q : ℚ, rsi_last (candles.map (fun c => c.close)) = EFloat.num q ∧
          40 ≤ q ∧ q ≤ 65) ∧
       is_bullish_candle (lastCandle candles) = true ∧
       check_volume_increasing (candles.map (fun c => c.volume)) 3 = true)) := by
  have hg := length_guard_false candles h
  simp only [check_buy_setup, hg, Bool.false_eq_true, if_false]
  rw [← rsi_range_iff]
  simp only [Bool.and_eq_true, Bool.or_eq_true, decide_eq_true_eq]
  tauto

/-- Witness for C1 at a concrete 200-candle series. -/
theorem buy_signal_iff_witness :
    200 ≤ goodSeries.length ∧
    ((check_buy_setup goodSeries).signal = true ↔
      ((lastCandle goodSeries).close >
          ema_last 200 (goodSeries.map (fun c => c.close)) ∧
       (near_level (lastCandle goodSeries).close
          (ema_last 21 (goodSeries.map (fun c => c.close))) = true ∨
        near_level (lastCandle goodSeries).close (vwap_last goodSeries) = true) ∧
       (∃ q : ℚ, rsi_last (goodSeries.map (fun c => c.close)) = EFloat.num q ∧
          40 ≤ q ∧ q ≤ 65) ∧
       is_bullish_candle (lastCandle goodSeries) = true ∧
       check_volume_increasing (goodSeries.map (fun c => c.volume)) 3 = true)) :=
  ⟨by simp [good_len], buy_signal_iff_conditions goodSeries (by simp [good_len])⟩

/-- C2 (amended): whenever the buy setup fires, the attached risk plan uses
entry = latest high, stop = min(previous low, EMA-21), targets adding 1x,
2x, 3x the risk to the entry, and risk_percent = risk / entry x 100; and
whenever additionally entry > stop, the targets are strictly ordered above
the entry.  (Entry > stop itself is not guaranteed by the code.) -/
theorem risk_plan_spec (candles : List Candle) (h : 200 ≤ candles.length)
    (hsig : (check_buy_setup candles).signal = true) :
    ∃ p : RiskPlan,
      (check_buy_setup candles).info.bind (fun i => i.plan) = some p ∧
      p.entry = (lastCandle candles).high ∧
      p.stop = min (prevCandle candles).low
        (ema_last 21 (candles.map (fun c => c.close))) ∧
      p.target_1 = p.entry + (p.entry - p.stop) ∧
      p.target_2 = p.entry + (p.entry - p.stop) * 2 ∧
      p.target_3 = p.entry + (p.entry - p.stop) * 3 ∧
      p.risk_percent = (p.entry - p.stop) / p.entry * 100 ∧
      (p.stop < p.entry →
        p.entry < p.target_1 ∧ p.target_1 < p.target_2 ∧ p.target_2 < p.target_3) := by
  have hg := length_guard_false candles h
  simp only [check_buy_setup, hg, Bool.false_eq_true, if_false] at hsig ⊢
  rw [Option.some_bind]
  rw [if_pos hsig]
  refine ⟨_, rfl, rfl, rfl, rfl, rfl, rfl, rfl, ?_⟩
  intro hlt
  refine ⟨by linarith, by linarith, by linarith⟩

/-- Witness for C2 (amended) at a concrete fired series with a valid plan. -/
theorem risk_plan_witness :
    200 ≤ goodSeries.length ∧
    (check_buy_setup goodSeries).signal = true ∧
    (∃ p : RiskPlan,
      (check_buy_setup goodSeries).info.bind (fun i => i.plan) = some p ∧
      p.entry = (lastCandle goodSeries).high ∧
      p.stop = min (prevCandle goodSeries).low
        (ema_last 21 (goodSeries.map (fun c => c.close))) ∧
      p.target_1 = p.entry + (p.entry - p.stop) ∧
      p.target_2 = p.entry + (p.entry - p.stop) * 2 ∧
      p.target_3 = p.entry + (p.entry - p.stop) * 3 ∧
      p.risk_percent = (p.entry - p.stop) / p.entry * 100 ∧
      (p.stop < p.entry →
        p.entry < p.target_1 ∧ p.target_1 < p.target_2 ∧ p.target_2 < p.target_3)) :=
  ⟨by simp [good_len], by rw [good_eval],
   risk_plan_spec goodSeries (by simp [good_len]) (by rw [good_eval])⟩

/-- Counterexample for C2 as stated: on this concrete 200-candle series the
buy setup fires, yet the plan's stop (the EMA-21, far above a crashed
price) is not below the entry (the latest high): entry <= stop, so
`entry > stop` and the target ordering both fail. -/
theorem risk_plan_violated_example :
    (check_buy_setup badSeries).signal = true ∧
    ((check_buy_setup badSeries).info.bind (fun i => i.plan)).map
      (fun p => decide (p.entry ≤ p.stop)) = some true := by
  rw [bad_eval]
  refine ⟨rfl, ?_⟩
  simp only [Option.some_bind, Option.map_some']
  norm_num

lemma rsi_deltas_length (closes : List ℚ) :
    (rsi_deltas closes).length = closes.length - 1 := by
  simp only [rsi_deltas, List.length_zipWith, List.length_tail]
  omega

lemma rsi_last_eq (closes : List ℚ) (h : 15 ≤ closes.length) :
    rsi_last closes =
      (EFloat.num 100).sub ((EFloat.num 100).div ((EFloat.num 1).add
        ((EFloat.num
            (((rsi_window closes).map (fun d => if 0 < d then d else 0)).sum / 14)).div
         (EFloat.num
            (((rsi_window closes).map (fun d => if d < 0 then -d else 0)).sum / 14))))) := by
  have hdl := rsi_deltas_length closes
  have hidx : ∀ g : ℚ → ℚ,
      ((0 :: (rsi_deltas closes).map g).drop
        ((0 :: (rsi_deltas closes).map g).length - 14)) = (rsi_window closes).map g := by
    intro g
    rw [List.length_cons, List.length_map, hdl,
      show closes.length - 1 + 1 - 14 = (closes.length - 15) + 1 by omega,
      List.drop_succ_cons, ← List.map_drop]
    unfold rsi_window
    rw [hdl, show closes.length - 1 - 14 = closes.length - 15 by omega]
  simp only [rsi_last]
  rw [if_neg (show ¬(closes.length < 14) by omega), hidx, hidx]

lemma efloat_rsi_loss_zero (a : ℚ) (ha : 0 < a) :
    (EFloat.num 100).sub ((EFloat.num 100).div ((EFloat.num 1).add
      ((EFloat.num a).div (EFloat.num 0)))) = EFloat.num 100 := by
  simp [EFloat.div, EFloat.add, EFloat.sub, EFloat.neg, ha, ha.ne']

lemma efloat_rsi_loss_pos (a b : ℚ) (hb : 0 < b) (hab : 0 ≤ a / b) :
    (EFloat.num 100).sub ((EFloat.num 100).div ((EFloat.num 1).add
      ((EFloat.num a).div (EFloat.num b)))) = EFloat.num (100 - 100 / (1 + a / b)) := by
  have h2 : (1 : ℚ) + a / b ≠ 0 := by positivity
  simp [EFloat.div, EFloat.add, EFloat.sub, EFloat.neg, hb.ne', h2, sub_eq_add_neg]

/-- C4: on a series long enough for the 14-delta window (at least 15
closes) whose window is non-degenerate (some delta is nonzero), the RSI at
the final index is a finite value in [0, 100]; and when every delta in the
window is non-negative (so the average loss is zero), the division by zero
inside `gain / loss` resolves through IEEE semantics to the sentinel 100
rather than a fault. -/
theorem rsi_bounds (closes : List ℚ) (h : 15 ≤ closes.length)
    (hnz : ∃ d ∈ rsi_window closes, d ≠ 0) :
    (∃ q : ℚ, rsi_last closes = EFloat.num q ∧ 0 ≤ q ∧ q ≤ 100) ∧
    ((∀ d ∈ rsi_window closes, 0 ≤ d) → rsi_last closes = EFloat.num 100) := by
  rw [rsi_last_eq closes h]
  set G := ((rsi_window closes).map (fun d => if 0 < d then d else 0)).sum with hGdef
  set L := ((rsi_window closes).map (fun d => if d < 0 then -d else 0)).sum with hLdef
  have hGnn : 0 ≤ G := by
    apply List.sum_nonneg
    intro x hx
    obtain ⟨d, _, rfl⟩ := List.mem_map.mp hx
    by_cases h0 : 0 < d
    · simp [h0, le_of_lt h0]
    · simp [h0]
  have hLnn : 0 ≤ L := by
    apply List.sum_nonneg
    intro x hx
    obtain ⟨d, _, rfl⟩ := List.mem_map.mp hx
    by_cases h0 : d < 0
    · simp [h0]
      linarith
    · simp [h0]
  have hGpos_of : ∀ d ∈ rsi_window closes, 0 < d → 0 < G := by
    intro d hd hdpos
    have hmem : d ∈ (rsi_window closes).map (fun d => if 0 < d then d else 0) := by
      have := List.mem_map_of_mem (fun d => if 0 < d then d else 0) hd
      simpa [hdpos] using this
    have hle := List.single_le_sum (l := (rsi_window closes).map
        (fun d => if 0 < d then d else 0)) ?_ d hmem
    · linarith
    · intro x hx
      obtain ⟨d', _, rfl⟩ := List.mem_map.mp hx
      by_cases h0 : 0 < d'
      · simp [h0, le_of_lt h0]
      · simp [h0]
  have hLpos_of : ∀ d ∈ rsi_window closes, d < 0 → 0 < L := by
    intro d hd hdneg
    have hmem : -d ∈ (rsi_window closes).map (fun d => if d < 0 then -d else 0) := by
      have := List.mem_map_of_mem (fun d => if d < 0 then -d else 0) hd
      simpa [hdneg] using this
    have hle := List.single_le_sum (l := (rsi_window closes).map
        (fun d => if d < 0 then -d else 0)) ?_ (-d) hmem
    · linarith
    · intro x hx
      obtain ⟨d', _, rfl⟩ := List.mem_map.mp hx
      by_cases h0 : d' < 0
      · simp [h0]
        linarith
      · simp [h0]
  constructor
  · by_cases hL0 : L = 0
    · obtain ⟨d, hd, hdnz⟩ := hnz
      have hGpos : 0 < G := by
        rcases lt_or_gt_of_ne hdnz with hneg | hpos
        · exact absurd hL0 (ne_of_gt (hLpos_of d hd hneg))
        · exact hGpos_of d hd hpos
      rw [hL0, zero_div, efloat_rsi_loss_zero (G / 14) (by positivity)]
      exact ⟨100, rfl, by norm_num, by norm_num⟩
    · have hLpos : 0 < L := lt_of_le_of_ne hLnn (Ne.symm hL0)
      have hbpos : 0 < L / 14 := by positivity
      have habnn : 0 ≤ (G / 14) / (L / 14) := by positivity
      rw [efloat_rsi_loss_pos (G / 14) (L / 14) hbpos habnn]
      refine ⟨_, rfl, ?_, ?_⟩
      · have hle : 100 / (1 + (G / 14) / (L / 14)) ≤ 100 :=
          div_le_self (by norm_num) (by linarith)
        linarith
      · have hpos : 0 < 100 / (1 + (G / 14) / (L / 14)) := by positivity
        linarith
  · intro hall
    have hL0 : L = 0 := by
      apply List.sum_eq_zero
      intro x hx
      obtain ⟨d, hd, rfl⟩ := List.mem_map.mp hx
      simp [not_lt.mpr (hall d hd)]
    obtain ⟨d, hd, hdnz⟩ := hnz
    have hGpos : 0 < G :=
      hGpos_of d hd (lt_of_le_of_ne (hall d hd) (Ne.symm hdnz))
    rw [hL0, zero_div, efloat_rsi_loss_zero (G / 14) (by positivity)]

/-- Witness for C4 at a concrete 15-close rising series (all window deltas
positive). -/
theorem rsi_bounds_witness :
    15 ≤ ([100,101,102,103,104,105,106,107,108,109,110,111,112,113,114] : List ℚ).length ∧
    (∃ d ∈ rsi_window [100,101,102,103,104,105,106,107,108,109,110,111,112,113,114],
      d ≠ 0) ∧
    ((∃ q : ℚ,
        rsi_last [100,101,102,103,104,105,106,107,108,109,110,111,112,113,114] =
          EFloat.num q ∧ 0 ≤ q ∧ q ≤ 100) ∧
     ((∀ d ∈ rsi_window [100,101,102,103,104,105,106,107,108,109,110,111,112,113,114],
        0 ≤ d) →
       rsi_last [100,101,102,103,104,105,106,107,108,109,110,111,112,113,114] =
         EFloat.num 100)) :=
  ⟨by simp, by with_unfolding_all decide,
   rsi_bounds _ (by simp) (by with_unfolding_all decide)⟩

lemma string_append_left_cancel {a b c : String} (h : a ++ b = a ++ c) : b = c := by
  apply String.ext
  have hd : (a ++ b).data = (a ++ c).data := by rw [h]
  rw [String.data_append, String.data_append] at hd
  exact List.append_cancel_left hd

lemma processSignal_fired_new (attempt : String → Except String String)
    (st : List String) (key msg : String) (h : key ∉ st) :
    processSignal attempt st true key msg =
      ([(msg, send_message attempt msg)], key :: st) := by
  unfold processSignal
  rw [if_pos rfl, if_neg h]

lemma processSignal_fired_seen (attempt : String → Except String String)
    (st : List String) (key msg : String) (h : key ∈ st) :
    processSignal attempt st true key msg = ([], st) := by
  unfold processSignal
  rw [if_pos rfl, if_pos h]

/-- C3: within one hour bucket, two firings of the same (symbol, direction)
setup hand exactly one message to the notification boundary (the lookup of
the alert key and its recording act as one check-and-insert on the cache),
while a firing in the next hour bucket (a different key, since the appended
hour strings differ) produces a second message. -/
theorem dedup_same_hour_bucket (attempt : String → Except String String)
    (st : List String) (symbol direction h1 h2 msg : String)
    (k1 : alert_key symbol direction h1 ∉ st)
    (k2 : alert_key symbol direction h2 ∉ st)
    (hne : h1 ≠ h2) :
    (processSignal attempt st true (alert_key symbol direction h1) msg).1.length = 1 ∧
    (processSignal attempt
       (processSignal attempt st true (alert_key symbol direction h1) msg).2
       true (alert_key symbol direction h1) msg).1.length = 0 ∧
    (processSignal attempt
       (processSignal attempt st true (alert_key symbol direction h1) msg).2
       true (alert_key symbol direction h2) msg).1.length = 1 := by
  have hkne : alert_key symbol direction h2 ≠ alert_key symbol direction h1 := by
    intro he
    exact hne (string_append_left_cancel he).symm
  have e1 := processSignal_fired_new attempt st (alert_key symbol direction h1) msg k1
  refine ⟨by rw [e1]; rfl, ?_, ?_⟩
  · rw [e1]
    rw [processSignal_fired_seen attempt _ _ msg (List.mem_cons_self _ _)]
    rfl
  · rw [e1]
    rw [processSignal_fired_new attempt _ _ msg
      (by simp only [List.mem_cons, not_or]; exact ⟨hkne, k2⟩)]
    rfl

/-- Witness for C3 at concrete symbol, direction, hour buckets and cache. -/
theorem dedup_witness :
    alert_key "BTCUSDT" "BUY" "2025101210" ∉ ([] : List String) ∧
    alert_key "BTCUSDT" "BUY" "2025101211" ∉ ([] : List String) ∧
    ("2025101210" : String) ≠ "2025101211" ∧
    ((processSignal Except.ok [] true (alert_key "BTCUSDT" "BUY" "2025101210")
        "alerta").1.length = 1 ∧
     (processSignal Except.ok
        (processSignal Except.ok [] true (alert_key "BTCUSDT" "BUY" "2025101210")
          "alerta").2
        true (alert_key "BTCUSDT" "BUY" "2025101210") "alerta").1.length = 0 ∧
     (processSignal Except.ok
        (processSignal Except.ok [] true (alert_key "BTCUSDT" "BUY" "2025101210")
          "alerta").2
        true (alert_key "BTCUSDT" "BUY" "2025101211") "alerta").1.length = 1) :=
  ⟨by simp, by simp, by decide,
   dedup_same_hour_bucket Except.ok [] "BTCUSDT" "BUY" "2025101210" "2025101211"
     "alerta" (by simp) (by simp) (by decide)⟩

lemma passFold_cons (attempt : String → Except String String)
    (s : Bool × String × String) (sigs : List (Bool × String × String))
    (acc : List (String × Option String) × List String) :
    passFold attempt (s :: sigs) acc =
      passFold attempt sigs
        (acc.1 ++ (processSignal attempt acc.2 s.1 s.2.1 s.2.2).1,
         (processSignal attempt acc.2 s.1 s.2.1 s.2.2).2) := rfl

lemma processSignal_state_indep (a a' : String → Except String String)
    (st : List String) (f : Bool) (k m : String) :
    (processSignal a st f k m).2 = (processSignal a' st f k m).2 := by
  cases f with
  | false => rfl
  | true =>
      unfold processSignal
      by_cases hk : k ∈ st
      · rw [if_pos rfl, if_pos rfl, if_pos hk, if_pos hk]
      · rw [if_pos rfl, if_pos rfl, if_neg hk, if_neg hk]

lemma processSignal_sent_length (a a' : String → Except String String)
    (st : List String) (f : Bool) (k m : String) :
    (processSignal a st f k m).1.length = (processSignal a' st f k m).1.length := by
  cases f with
  | false => rfl
  | true =>
      unfold processSignal
      by_cases hk : k ∈ st
      · rw [if_pos rfl, if_pos rfl, if_pos hk, if_pos hk]
      · rw [if_pos rfl, if_pos rfl, if_neg hk, if_neg hk]
        rfl

lemma passFold_state_indep (sigs : List (Bool × String × String))
    (a a' : String → Except String String) :
    ∀ (l l' : List (String × Option String)) (st : List String),
    (passFold a sigs (l, st)).2 = (passFold a' sigs (l', st)).2 := by
  induction sigs with
  | nil => intro l l' st; rfl
  | cons s ss ih =>
      intro l l' st
      rw [passFold_cons, passFold_cons]
      rw [show (processSignal a st s.1 s.2.1 s.2.2).2 =
            (processSignal a' st s.1 s.2.1 s.2.2).2 from
          processSignal_state_indep a a' st s.1 s.2.1 s.2.2]
      exact ih _ _ _

lemma passFold_len_indep (sigs : List (Bool × String × String))
    (a a' : String → Except String String) :
    ∀ (l l' : List (String × Option String)) (st : List String),
    l.length = l'.length →
    (passFold a sigs (l, st)).1.length = (passFold a' sigs (l', st)).1.length := by
  induction sigs with
  | nil => intro l l' st h; exact h
  | cons s ss ih =>
      intro l l' st h
      rw [passFold_cons, passFold_cons]
      rw [show (processSignal a st s.1 s.2.1 s.2.2).2 =
            (processSignal a' st s.1 s.2.1 s.2.2).2 from
          processSignal_state_indep a a' st s.1 s.2.1 s.2.2]
      apply ih
      rw [List.length_append, List.length_append, h,
        processSignal_sent_length a a' st s.1 s.2.1 s.2.2]

/-- C7: a failed delivery attempt still records the alert key as seen (the
attempt is handed to the boundary, comes back as `none`, and the key is
inserted regardless), a second firing of the same key is not re-sent, and a
pass behaves identically — same final cache and same number of delivery
attempts — under a failing transport as under an always-succeeding one, so
scanning is not halted. -/
theorem failed_send_spec (attempt : String → Except String String)
    (st : List String) (key msg err : String)
    (hfail : attempt msg = Except.error err) (hnew : key ∉ st) :
    processSignal attempt st true key msg = ([(msg, none)], key :: st) ∧
    (processSignal attempt (key :: st) true key msg).1 = [] ∧
    (∀ sigs : List (Bool × String × String),
      (monitorPass attempt sigs st).2 =
        (monitorPass (fun t => Except.ok t) sigs st).2 ∧
      (monitorPass attempt sigs st).1.length =
        (monitorPass (fun t => Except.ok t) sigs st).1.length) := by
  refine ⟨?_, ?_, ?_⟩
  · rw [processSignal_fired_new attempt st key msg hnew]
    unfold send_message
    rw [hfail]
  · rw [processSignal_fired_seen attempt _ key msg (List.mem_cons_self _ _)]
  · intro sigs
    constructor
    · simp only [monitorPass]
      rw [passFold_state_indep sigs attempt (fun t => Except.ok t) [] [] st]
    · simp only [monitorPass]
      exact passFold_len_indep sigs attempt (fun t => Except.ok t) [] [] st rfl

/-- Witness for C7 with a transport that always fails. -/
theorem failed_send_witness :
    (fun _ : String => Except.error (α := String) "offline") "alerta" =
      Except.error "offline" ∧
    ("BTCUSDT_BUY_2025101210" : String) ∉ ([] : List String) ∧
    (processSignal (fun _ => Except.error "offline") [] true
       "BTCUSDT_BUY_2025101210" "alerta" = ([("alerta", none)], ["BTCUSDT_BUY_2025101210"]) ∧
     (processSignal (fun _ => Except.error "offline") ["BTCUSDT_BUY_2025101210"] true
        "BTCUSDT_BUY_2025101210" "alerta").1 = [] ∧
     (∀ sigs : List (Bool × String × String),
       (monitorPass (fun _ => Except.error "offline") sigs []).2 =
         (monitorPass (fun t => Except.ok t) sigs []).2 ∧
       (monitorPass (fun _ => Except.error "offline") sigs []).1.length =
         (monitorPass (fun t => Except.ok t) sigs []).1.length)) :=
  ⟨rfl, by simp,
   failed_send_spec (fun _ => Except.error "offline") [] "BTCUSDT_BUY_2025101210"
     "alerta" "offline" rfl (by simp)⟩

lemma passFold_all_new (attempt : String → Except String String) (m : String) :
    ∀ (keys : List String) (l : List (String × Option String)) (st : List String),
    keys.Nodup → (∀ k ∈ keys, k ∉ st) →
    (passFold attempt (keys.map (fun k => (true, k, m))) (l, st)).2 =
      keys.reverse ++ st := by
  intro keys
  induction keys with
  | nil => intro l st _ _; rfl
  | cons k ks ih =>
      intro l st hnd hdisj
      rw [List.map_cons, passFold_cons]
      rw [show (processSignal attempt (l, st).2 (true, k, m).1 (true, k, m).2.1
            (true, k, m).2.2) = ([(m, send_message attempt m)], k :: st) from
        processSignal_fired_new attempt st k m (hdisj k (List.mem_cons_self k ks))]
      rw [ih _ _ (List.nodup_cons.mp hnd).2 ?_]
      · rw [List.reverse_cons, List.append_assoc]
        rfl
      · intro k' hk'
        simp only [List.mem_cons, not_or]
        exact ⟨fun he => (List.nodup_cons.mp hnd).1 (he ▸ hk'),
          hdisj k' (List.mem_cons_of_mem _ hk')⟩

/-- C5 (amended): the alert cache is cleared entirely — a full reset, not a
per-entry eviction — at the end of a monitor pass whose accumulated size
exceeds 100.  A pass that inserts 101 distinct keys from an empty cache
therefore ends with an empty cache, and the next insertion (in a later
pass) is evaluated against an empty cache and sends even for a repeated
key.  Within a pass, however, insertions after the 101st still see the
accumulated cache (see the counterexample). -/
theorem cache_reset_after_pass (attempt : String → Except String String)
    (m k' m' : String) (keys : List String)
    (hnd : keys.Nodup) (hlen : keys.length = 101) :
    (monitorPass attempt (keys.map (fun k => (true, k, m))) []).2 = [] ∧
    processSignal attempt
      ((monitorPass attempt (keys.map (fun k => (true, k, m))) []).2) true k' m' =
      ([(m', send_message attempt m')], [k']) := by
  have hst : (passFold attempt (keys.map (fun k => (true, k, m))) ([], [])).2 =
      keys.reverse := by
    rw [passFold_all_new attempt m keys [] [] hnd (by simp)]
    simp
  have hmp : (monitorPass attempt (keys.map (fun k => (true, k, m))) []).2 = [] := by
    simp only [monitorPass]
    rw [hst, List.length_reverse, hlen, if_pos (by norm_num)]
  refine ⟨hmp, ?_⟩
  rw [hmp, processSignal_fired_new attempt [] k' m' (by simp)]

/-- The 101 distinct alert keys used by the C5 witness and counterexample. -/
def keys101 : List String := (List.range 101).map (fun i => "k" ++ toString i)

lemma keys101_nodup : keys101.Nodup := by with_unfolding_all decide

lemma keys101_len : keys101.length = 101 := by
  simp [keys101]

/-- Witness for C5 (amended) at 101 concrete distinct keys. -/
theorem cache_reset_witness :
    keys101.Nodup ∧ keys101.length = 101 ∧
    ((monitorPass (fun t => Except.ok t)
        (keys101.map (fun k => (true, k, "m"))) []).2 = [] ∧
     processSignal (fun t => Except.ok t)
       ((monitorPass (fun t => Except.ok t)
          (keys101.map (fun k => (true, k, "m"))) []).2) true "k0" "m" =
       ([("m", send_message (fun t => Except.ok t) "m")], ["k0"])) :=
  ⟨keys101_nodup, keys101_len,
   cache_reset_after_pass (fun t => Except.ok t) "m" "k0" "m" keys101
     keys101_nodup keys101_len⟩

/-- Counterexample for C5 as stated: in the middle of a pass, after the 101
distinct keys of `keys101` have been inserted into an initially empty
cache, the cache holds 101 entries (it is not empty — the reset only runs
at the end of the pass), and a 102nd insertion repeating the first key is
evaluated against that populated cache and suppressed, not evaluated
against an empty cache. -/
theorem cache_not_cleared_mid_pass :
    (passFold (fun t => Except.ok t) (keys101.map (fun k => (true, k, "m")))
      ([], [])).2.length = 101 ∧
    (processSignal (fun t => Except.ok t)
      (passFold (fun t => Except.ok t) (keys101.map (fun k => (true, k, "m")))
        ([], [])).2 true "k0" "m").1 = [] := by
  have hst : (passFold (fun t => Except.ok t)
      (keys101.map (fun k => (true, k, "m"))) ([], [])).2 = keys101.reverse := by
    rw [passFold_all_new (fun t => Except.ok t) "m" keys101 [] [] keys101_nodup
      (by simp)]
    simp
  constructor
  · rw [hst, List.length_reverse, keys101_len]
  · rw [hst, processSignal_fired_seen _ _ _ _
      (List.mem_reverse.mpr (by with_unfolding_all decide))]
